import Mathlib

/-!
Shallow embedding of the Moltbot Napcat (OneBot v11) channel plugin:
the message codec, access policy, media resolver and reply delivery
(`src/channel.ts`) and the WebSocket transport/RPC core
(`src/onebot-connection.ts`).  JavaScript strings are modelled as Lean
`String`, records as association lists, and the stateful connection as an
explicit state record with step functions returning the settled promises
and scheduled timers as data.
-/

/-- JavaScript `String.prototype.trim` on the characters the inputs of
this development use: strip leading and trailing whitespace characters.
Implemented over the character list so that concrete inputs evaluate
inside the kernel. -/
def jsTrim (s : String) : String :=
  ⟨((s.data.dropWhile Char.isWhitespace).reverse.dropWhile Char.isWhitespace).reverse⟩

/-- Whether the first character of the string is `c`. -/
def headIs (s : String) (c : Char) : Bool :=
  match s.data with
  | x :: _ => x == c
  | [] => false

/-- Case-insensitive prefix test, modelling a case-insensitive anchored
regex test such as `/^(https?|file|base64):/i` applied alternative by
alternative. -/
def startsWithCI (s pre : String) : Bool :=
  (s.data.take pre.data.length).map Char.toLower == pre.data.map Char.toLower

/-- Drop the first `n` characters of a string. -/
def dropChars (s : String) (n : Nat) : String :=
  ⟨s.data.drop n⟩

/-- Models the regex `/^[A-Za-z]:[\\/]/` of `isLikelyMediaRef`: a Windows
drive-letter path. -/
def isDrivePath (s : String) : Bool :=
  match s.data with
  | c0 :: c1 :: c2 :: _ => c0.isAlpha && c1 == ':' && (c2 == '\\' || c2 == '/')
  | _ => false

/-- `isLikelyMediaRef` from `src/channel.ts`: trims the value, rejects the
empty string, accepts `http:`/`https:`/`file:`/`base64:` schemes
(case-insensitive), absolute POSIX paths and Windows drive paths. -/
def isLikelyMediaRef (value : String) : Bool :=
  let trimmed := jsTrim value
  if trimmed = "" then false
  else if startsWithCI trimmed "http:" || startsWithCI trimmed "https:"
       || startsWithCI trimmed "file:" || startsWithCI trimmed "base64:" then true
  else if headIs trimmed '/' then true
  else if isDrivePath trimmed then true
  else false

/-- A OneBot wire message segment: an optional `type` tag and a string
record `data` (the source reads only its `text`, `url` and `file` keys). -/
structure OneBotMessageSegment where
  type : Option String
  data : List (String × String)
deriving DecidableEq, Repr

/-- The `message` field of an inbound event: a plain string, a segment
array, or anything else (which the parser ignores). -/
inductive OneBotInboundMessage where
  | str (s : String)
  | segs (l : List OneBotMessageSegment)
  | other
deriving DecidableEq, Repr

/-- The normalized result of `parseOneBotMessage`. -/
structure ParsedMessage where
  text : String
  mediaUrls : List String
  mediaTypes : List String
deriving DecidableEq, Repr

/-- The media-kind tag pushed by `parseOneBotMessage` for a media segment:
`record` maps to "audio", `video` to "video", otherwise (`image`) "image". -/
def mediaKindTag (type : String) : String :=
  if type = "record" then "audio" else if type = "video" then "video" else "image"

/-- The reference string a media segment contributes:
`typed?.data?.url ?? typed?.data?.file ?? ""`. -/
def segmentMediaRef (seg : OneBotMessageSegment) : String :=
  ((seg.data.lookup "url").orElse (fun _ => seg.data.lookup "file")).getD ""

/-- The segment loop of `parseOneBotMessage`, written as structural
recursion: each iteration pushes onto the three accumulator lists. -/
def parseSegments : List OneBotMessageSegment → ParsedMessage
  | [] => ⟨"", [], []⟩
  | seg :: rest =>
    let r := parseSegments rest
    if seg.type = some "text" then
      match seg.data.lookup "text" with
      | some t => ⟨t ++ r.text, r.mediaUrls, r.mediaTypes⟩
      | none => r
    else if seg.type = some "image" ∨ seg.type = some "record" ∨ seg.type = some "video" then
      let url := segmentMediaRef seg
      if isLikelyMediaRef url then
        ⟨r.text, url :: r.mediaUrls, mediaKindTag ((seg.type).getD "") :: r.mediaTypes⟩
      else r
    else r

/-- `parseOneBotMessage` from `src/channel.ts`: a string message becomes
its own text; a segment array is folded by `parseSegments`; anything else
yields the empty result. -/
def parseOneBotMessage (message : OneBotInboundMessage) : ParsedMessage :=
  match message with
  | .str s => ⟨s, [], []⟩
  | .segs l => parseSegments l
  | .other => ⟨"", [], []⟩

/-- Restatement of the codec rule in the spec's own words: a segment
contributes text iff it is `text`-typed and carries a `text` field. -/
def specSegText (seg : OneBotMessageSegment) : Option String :=
  if seg.type = some "text" then seg.data.lookup "text" else none

/-- Restatement of the codec rule in the spec's own words: an
`image`/`record`/`video` segment contributes a `(reference, kind)` pair iff
its `url`-or-`file` field looks like a real media reference, with `record`
mapped to "audio" and `image`/`video` to themselves. -/
def specSegMedia (seg : OneBotMessageSegment) : Option (String × String) :=
  if seg.type = some "image" ∨ seg.type = some "record" ∨ seg.type = some "video" then
    let ref := segmentMediaRef seg
    if isLikelyMediaRef ref then some (ref, mediaKindTag ((seg.type).getD "")) else none
  else none

/-- Strips one leading `qq:` or `user:` scheme, case-insensitively, as the
regex `replace(/^(qq|user):/i, "")` does. -/
def stripLeadingIdScheme (s : String) : String :=
  if startsWithCI s "qq:" then dropChars s 3
  else if startsWithCI s "user:" then dropChars s 5
  else s

/-- `normalizeAllowEntry` from `src/channel.ts` (on string entries): trim,
keep `""` and `"*"` as-is, otherwise strip a leading `qq:`/`user:` scheme. -/
def normalizeAllowEntry (entry : String) : String :=
  let value := jsTrim entry
  if value = "" then ""
  else if value = "*" then "*"
  else stripLeadingIdScheme value

/-- First-occurrence deduplication, the order `Array.from(new Set(xs))`
produces. -/
def dedupFirst (l : List String) : List String :=
  l.foldl (fun acc x => if acc.contains x then acc else acc ++ [x]) []

/-- `normalizeAllowList` from `src/channel.ts`: normalize each entry, drop
empties, deduplicate. -/
def normalizeAllowList (entries : List String) : List String :=
  dedupFirst ((entries.map normalizeAllowEntry).filter (fun s => s ≠ ""))

/-- `isSenderAllowed` from `src/channel.ts`. -/
def isSenderAllowed (senderId : String) (allowFrom : List String) : Bool :=
  let normalized := normalizeAllowEntry senderId
  if allowFrom.contains "*" then true
  else allowFrom.contains normalized

/-- The effective allow list computed by `handlePrivateMessage`:
`Array.from(new Set([...configAllowFrom, ...storedAllowFrom]))` where both
input lists were already passed through `normalizeAllowList`. -/
def effectiveAllowFrom (configAllowFrom storedAllowFrom : List String) : List String :=
  dedupFirst (normalizeAllowList configAllowFrom ++ normalizeAllowList storedAllowFrom)

/-- The four dmPolicy values. -/
inductive DmPolicy where
  | open
  | allowlist
  | pairing
  | disabled
deriving DecidableEq, Repr

/-- Modelled from the spec: the host pairing capability's
`upsertPairingRequest` (clawdbot/plugin-sdk, outside this repository) is
"idempotent per sender — returns whether this is a newly created request";
the store is modelled as the list of sender ids holding pairing requests. -/
def upsertPairingRequest (store : List String) (id : String) : List String × Bool :=
  if store.contains id then (store, false) else (store ++ [id], true)

/-- The observable outcome of the policy gate of `handlePrivateMessage`
for one inbound private message: the pairing store afterwards, how many
pairing-code replies were sent, and whether the message proceeded to
dispatch. -/
structure PolicyStepOut where
  store : List String
  repliesSent : Nat
  dispatched : Bool
deriving DecidableEq, Repr

/-- The dmPolicy gate of `handlePrivateMessage` (`src/channel.ts`):
`disabled` drops; a non-`open` policy with an unauthorized sender either
upserts a pairing request (replying only when newly created) under
`pairing`, or drops under `allowlist`; otherwise the message dispatches. -/
def handlePrivateMessagePolicy (dmPolicy : DmPolicy) (allowFrom : List String)
    (store : List String) (senderId : String) : PolicyStepOut :=
  let senderAllowed := isSenderAllowed senderId allowFrom
  if dmPolicy = .disabled then ⟨store, 0, false⟩
  else if dmPolicy ≠ .open ∧ !senderAllowed then
    if dmPolicy = .pairing then
      let r := upsertPairingRequest store senderId
      ⟨r.1, if r.2 then 1 else 0, false⟩
    else ⟨store, 0, false⟩
  else ⟨store, 0, true⟩

/-- The kind returned by the injected `runtime.media.mediaKindFromMime`
capability. -/
inductive MediaKind where
  | image
  | audio
  | video
  | unknown
deriving DecidableEq, Repr

/-- A OneBot outbound media segment type. -/
inductive SegmentMediaType where
  | image
  | record
  | video
deriving DecidableEq, Repr

/-- `resolveMediaSegmentType` from `src/channel.ts`, instrumented with a
Boolean recording whether the injected MIME-detection capability was
consulted.  `detectKind` stands for `detectMime` composed with
`mediaKindFromMime`.  The source tests the regex `^base64:` followed by
two slashes, case-insensitively, before any detection call. -/
def resolveMediaSegmentType (detectKind : String → MediaKind) (mediaUrl : String) :
    Option SegmentMediaType × Bool :=
  if startsWithCI mediaUrl "base64://" then (some .image, false)
  else
    match detectKind mediaUrl with
    | .image => (some .image, true)
    | .audio => (some .record, true)
    | .video => (some .video, true)
    | .unknown => (none, true)

/-- `buildTextSegment` from `src/channel.ts`. -/
def buildTextSegment (text : String) : OneBotMessageSegment :=
  ⟨some "text", [("text", text)]⟩

/-- `buildMediaSegment` from `src/channel.ts`. -/
def buildMediaSegment (type : SegmentMediaType) (file : String) : OneBotMessageSegment :=
  match type with
  | .image => ⟨some "image", [("file", file)]⟩
  | .record => ⟨some "record", [("file", file)]⟩
  | .video => ⟨some "video", [("file", file)]⟩

/-- The segment array sent by `sendNapcatMedia` (`src/channel.ts`): with
no resolved media type it degrades to `sendNapcatText` of the caption and
raw reference combined (one text segment), otherwise an optional caption
text segment followed by the media segment. -/
def sendNapcatMediaSegments (detectKind : String → MediaKind) (text mediaUrl : String) :
    List OneBotMessageSegment :=
  match (resolveMediaSegmentType detectKind mediaUrl).1 with
  | none =>
    let fallback := if text ≠ "" then text ++ "\n" ++ mediaUrl else mediaUrl
    [buildTextSegment fallback]
  | some t =>
    (if text ≠ "" then [buildTextSegment text] else []) ++ [buildMediaSegment t mediaUrl]

/-- One outbound send performed by the reply delivery callback: either a
chunked text send (`sendNapcatText`) or a media send (`sendNapcatMedia`)
with the caption text passed to it. -/
inductive SendOp where
  | text (t : String)
  | media (caption : String) (url : String)
deriving DecidableEq, Repr

/-- The reply payload fields the delivery callback reads. -/
structure ReplyPayload where
  text : Option String
  mediaUrl : Option String
  mediaUrls : Option (List String)
deriving DecidableEq, Repr

/-- `payload.mediaUrls ?? (payload.mediaUrl ? [payload.mediaUrl] : [])`:
a present `mediaUrls` array wins even when empty; an empty-string
`mediaUrl` is falsy and yields no media. -/
def resolveMediaUrls (p : ReplyPayload) : List String :=
  match p.mediaUrls with
  | some l => l
  | none =>
    match p.mediaUrl with
    | some u => if u = "" then [] else [u]
    | none => []

/-- `sendTextChunks` from `src/channel.ts` as the list of sends it
performs: chunk the text (`chunk` stands for `chunkTextWithMode` with the
limit and mode applied), fall back to the whole text when the chunker
returns nothing, skip falsy (empty) chunks, and sanitize each sent chunk. -/
def sendTextChunksOps (sanitize : String → String) (chunk : String → List String)
    (text : String) : List SendOp :=
  let chunks := chunk text
  let candidates := if 0 < chunks.length then chunks else [text]
  candidates.filterMap (fun c => if c = "" then none else some (.text (sanitize c)))

/-- The media loop of the delivery callback: the first media item carries
the caption, the rest carry empty text. -/
def mediaLoopOps (caption : String) : List String → List SendOp
  | [] => []
  | u :: rest => .media caption u :: rest.map (fun v => .media "" v)

/-- The `deliver` callback of `handlePrivateMessage` (`src/channel.ts`) as
the ordered list of sends it performs.  `sanitize` stands for
`sanitizeNapcatText` and `chunk` for the host chunker at the resolved
limit and mode. -/
def deliverOps (sanitize : String → String) (chunk : String → List String)
    (textLimit : Nat) (p : ReplyPayload) : List SendOp :=
  let mediaUrls := resolveMediaUrls p
  let text := sanitize ((p.text).getD "")
  if mediaUrls.length = 0 then sendTextChunksOps sanitize chunk text
  else
    let pre := if text ≠ "" ∧ textLimit < text.length
               then sendTextChunksOps sanitize chunk text else []
    let caption := if text ≠ "" ∧ textLimit < text.length then "" else text
    pre ++ mediaLoopOps caption mediaUrls

/-- Response status values of a OneBot action response. -/
inductive RespStatus where
  | ok
  | async
  | failed
deriving DecidableEq, Repr

/-- `OneBotActionResponse` from `src/onebot-connection.ts`; `data` is kept
as an opaque string record and `echo` is optional. -/
structure OneBotActionResponse where
  status : RespStatus
  retcode : Int
  data : Option (List (String × String))
  echo : Option String
deriving DecidableEq, Repr

/-- How a pending waiter's promise is settled. -/
inductive Settle where
  | resolved (resp : OneBotActionResponse)
  | rejected (reason : String)
deriving DecidableEq, Repr

/-- Mutable state of one `createOneBotConnection` instance: the pending
request map (echo token to the action name of the request, insertion
order), whether the socket is open, the stopped flag, the echo counter and
the reconnect-attempt counter. -/
structure ConnState where
  pending : List (String × String)
  wsConnected : Bool
  stopped : Bool
  echoCounter : Nat
  reconnectAttempts : Nat
deriving DecidableEq, Repr

/-- The observable effects of one event-handler step on a connection: the
state afterwards, the promise settlements delivered to waiters (echo token
paired with its settlement, in order), and the reconnect delay scheduled
by `setTimeout`, when one is. -/
structure StepOut where
  state : ConnState
  settles : List (String × Settle)
  scheduledDelay : Option Nat
deriving DecidableEq, Repr

/-- `REQUEST_TIMEOUT_MS` from `src/onebot-connection.ts`. -/
def REQUEST_TIMEOUT_MS : Nat := 10000

/-- `RECONNECT_BASE_MS` from `src/onebot-connection.ts`. -/
def RECONNECT_BASE_MS : Nat := 1000

/-- `RECONNECT_MAX_MS` from `src/onebot-connection.ts`. -/
def RECONNECT_MAX_MS : Nat := 15000

/-- One inbound socket frame after `JSON.parse`: a parse failure, an
object with a `post_type` key (an event), an object with an `echo` key (a
response, whose `echo` value may still be absent), or any other value. -/
inductive WirePayload where
  | malformed
  | event
  | withEcho (resp : OneBotActionResponse)
  | other
deriving DecidableEq, Repr

/-- `String(payload.echo ?? "")`: the echo key the message handler looks
up, the empty string when the `echo` value is null or undefined. -/
def echoKey (resp : OneBotActionResponse) : String :=
  (resp.echo).getD ""

/-- `cleanupPending(reason)` from `src/onebot-connection.ts`: clears every
pending entry's timeout, rejects it with the reason, and removes it. -/
def cleanupPending (st : ConnState) (reason : String) : ConnState × List (String × Settle) :=
  ({ st with pending := [] },
   st.pending.map (fun e => (e.1, Settle.rejected reason)))

/-- The socket `open` handler: resets the reconnect-attempt counter (the
connected callback carries no state). -/
def handleOpen (st : ConnState) : StepOut :=
  ⟨{ st with wsConnected := true, reconnectAttempts := 0 }, [], none⟩

/-- The socket `message` handler of `createOneBotConnection`: parse
failures and event payloads leave the pending map untouched (events go to
`onEvent`); a payload with an `echo` key resolves and removes the matching
pending entry, clearing its timeout, and is dropped silently when no entry
matches; anything else is ignored. -/
def handleMessage (st : ConnState) (p : WirePayload) : StepOut :=
  match p with
  | .malformed => ⟨st, [], none⟩
  | .event => ⟨st, [], none⟩
  | .withEcho resp =>
    let echo := echoKey resp
    match st.pending.lookup echo with
    | none => ⟨st, [], none⟩
    | some _ =>
      ⟨{ st with pending := st.pending.filter (fun e => !(e.1 == echo)) },
       [(echo, Settle.resolved resp)], none⟩
  | .other => ⟨st, [], none⟩

/-- The socket `close` handler: null the socket, reject all pending
entries with "WebSocket closed", and unless stopped schedule a reconnect
after `min(RECONNECT_BASE_MS * 2 ^ reconnectAttempts, RECONNECT_MAX_MS)`
milliseconds, incrementing the attempt counter afterwards. -/
def handleClose (st : ConnState) : StepOut :=
  let cleaned := cleanupPending { st with wsConnected := false } "WebSocket closed"
  if cleaned.1.stopped then ⟨cleaned.1, cleaned.2, none⟩
  else
    let delay := min (RECONNECT_BASE_MS * 2 ^ cleaned.1.reconnectAttempts) RECONNECT_MAX_MS
    ⟨{ cleaned.1 with reconnectAttempts := cleaned.1.reconnectAttempts + 1 },
     cleaned.2, some delay⟩

/-- `stop()` from `src/onebot-connection.ts`: set the stopped flag, reject
every pending entry with "WebSocket stopped", and close and null the
socket. -/
def stop (st : ConnState) : StepOut :=
  let cleaned := cleanupPending { st with stopped := true } "WebSocket stopped"
  ⟨{ cleaned.1 with wsConnected := false }, cleaned.2, none⟩

/-- The registration half of `sendActionWs`: requires an open socket,
assigns the next stringified counter value as the echo token, and inserts
a pending entry (whose timeout is armed for `REQUEST_TIMEOUT_MS`).  Yields
the new state and the assigned echo, or the thrown error message. -/
def sendActionWsStep (st : ConnState) (action : String) :
    Except String (ConnState × String) :=
  if !st.wsConnected then .error "WebSocket not connected"
  else
    let echo := toString (st.echoCounter + 1)
    .ok ({ st with echoCounter := st.echoCounter + 1,
                   pending := st.pending ++ [(echo, action)] }, echo)

/-- The timeout callback armed by `sendActionWs` for a still-pending entry
(the timer is cleared whenever the entry is removed otherwise): deletes
the entry and rejects its waiter with the timeout error message. -/
def timeoutFire (st : ConnState) (echo action : String) : StepOut :=
  ⟨{ st with pending := st.pending.filter (fun e => !(e.1 == echo)) },
   [(echo, Settle.rejected ("OneBot request timeout: " ++ action))], none⟩

/-- How the awaited `sendActionWs` promise settled, from the caller's
point of view inside `sendAction`. -/
inductive WsAttemptOutcome where
  | resolved (r : OneBotActionResponse)
  | timedOut
  | failedOther (reason : String)
deriving DecidableEq, Repr

/-- `sendActionHttp` from `src/onebot-connection.ts` as a function of the
configured URL and the HTTP exchange outcome: without a configured URL it
throws; a non-success status is a hard error; otherwise the parsed body is
returned. -/
def sendActionHttp (httpUrl : Option String) (action : String)
    (httpExchange : Except Nat OneBotActionResponse) : Except String OneBotActionResponse :=
  match httpUrl with
  | none => .error "HTTP fallback not configured"
  | some _ =>
    match httpExchange with
    | .error status => .error ("OneBot HTTP error (" ++ action ++ "): " ++ toString status)
    | .ok r => .ok r

/-- Result of `sendAction` together with whether the HTTP transport was
used for this call. -/
structure SendActionResult where
  result : Except String OneBotActionResponse
  usedHttp : Bool
deriving Repr

/-- `sendAction` from `src/onebot-connection.ts` as a function of the
connection status, the configured HTTP URL, the outcome the socket
attempt would have, and the outcome the HTTP exchange would have: when
connected it awaits the socket attempt and on any rejection — including
the request timeout — falls back to HTTP when `httpUrl` is configured,
rethrowing the original error otherwise; when not connected it goes
straight to HTTP. -/
def sendAction (connected : Bool) (httpUrl : Option String) (action : String)
    (wsOutcome : WsAttemptOutcome) (httpExchange : Except Nat OneBotActionResponse) :
    SendActionResult :=
  if connected then
    match wsOutcome with
    | .resolved r => ⟨.ok r, false⟩
    | .timedOut =>
      if httpUrl.isSome then ⟨sendActionHttp httpUrl action httpExchange, true⟩
      else ⟨.error ("OneBot request timeout: " ++ action), false⟩
    | .failedOther reason =>
      if httpUrl.isSome then ⟨sendActionHttp httpUrl action httpExchange, true⟩
      else ⟨.error reason, false⟩
  else ⟨sendActionHttp httpUrl action httpExchange, true⟩

/-- In-order concatenation of a list of strings, the spec's reading of
"text segments concatenate (in order) into the text field". -/
def joinAll : List String → String
  | [] => ""
  | s :: rest => s ++ joinAll rest

/-- The segment loop agrees with the per-segment spec rules `specSegText`
and `specSegMedia` applied in order. -/
theorem parseSegments_spec (l : List OneBotMessageSegment) :
    parseSegments l =
      ⟨joinAll (l.filterMap specSegText),
       (l.filterMap specSegMedia).map Prod.fst,
       (l.filterMap specSegMedia).map Prod.snd⟩ := by
  induction l with
  | nil => rfl
  | cons seg rest ih =>
    by_cases ht : seg.type = some "text"
    · have hm : ¬ (seg.type = some "image" ∨ seg.type = some "record"
          ∨ seg.type = some "video") := by
        simp [ht]
      cases hl : seg.data.lookup "text" with
      | none =>
        simp [parseSegments, specSegText, specSegMedia, ht, hm, hl, ih, joinAll]
      | some t =>
        simp [parseSegments, specSegText, specSegMedia, ht, hm, hl, ih, joinAll]
    · by_cases hm : seg.type = some "image" ∨ seg.type = some "record"
          ∨ seg.type = some "video"
      · by_cases hr : isLikelyMediaRef (segmentMediaRef seg)
        · simp [parseSegments, specSegText, specSegMedia, ht, hm, hr, ih, joinAll]
        · simp [parseSegments, specSegText, specSegMedia, ht, hm, hr, ih, joinAll]
      · simp [parseSegments, specSegText, specSegMedia, ht, hm, ih, joinAll]

/-- C5: for every segment-sequence wire message, the codec concatenates
the text of `text`-typed segments in order, collects in order exactly the
media references of `image`/`record`/`video` segments whose `url`-or-`file`
field looks like a real reference (`record` tagged "audio", `image`/`video`
tagged as themselves), and drops segments with empty or unrecognized
references; in particular the segment list with text "hi" and an image url
yields exactly that text and that single image reference. -/
theorem c5_codec_inbound :
    (∀ l : List OneBotMessageSegment,
      parseOneBotMessage (.segs l) =
        ⟨joinAll (l.filterMap specSegText),
         (l.filterMap specSegMedia).map Prod.fst,
         (l.filterMap specSegMedia).map Prod.snd⟩) ∧
    parseOneBotMessage (.segs
        [⟨some "text", [("text", "hi")]⟩,
         ⟨some "image", [("url", "https://x/y.png")]⟩]) =
      ⟨"hi", ["https://x/y.png"], ["image"]⟩ := by
  refine ⟨fun l => ?_, by decide⟩
  simpa [parseOneBotMessage] using parseSegments_spec l

/-- C7 as stated is false on the code: with configured allow-list ["*"]
and sender "456", the sender is authorized although "456" is not present
in the (normalized) union, so "authorized iff present in the union" fails. -/
theorem c7_counterexample :
    ¬ (∀ (config stored : List String) (sender : String),
        isSenderAllowed sender (effectiveAllowFrom config stored) =
          (effectiveAllowFrom config stored).contains (normalizeAllowEntry sender)) := by
  intro h
  have hc := h ["*"] [] "456"
  revert hc
  decide

/-- C7 amended: under dmPolicy `allowlist`, a sender is authorized iff the
effective allow list (union of configured and persisted entries,
normalized) contains the wildcard "*" or contains the sender's identifier
after normalization; an unauthorized sender's message is dropped with no
reply, no store change and no dispatch; with configured allow-list ["123"]
sender "qq:123" is authorized and sender "456" is not. -/
theorem c7_allowlist (config stored store : List String) (sender : String) :
    (isSenderAllowed sender (effectiveAllowFrom config stored) =
      ((effectiveAllowFrom config stored).contains "*" ||
       (effectiveAllowFrom config stored).contains (normalizeAllowEntry sender))) ∧
    (isSenderAllowed sender (effectiveAllowFrom config stored) = false →
      handlePrivateMessagePolicy .allowlist (effectiveAllowFrom config stored) store sender =
        ⟨store, 0, false⟩) ∧
    isSenderAllowed "qq:123" (effectiveAllowFrom ["123"] []) = true ∧
    isSenderAllowed "456" (effectiveAllowFrom ["123"] []) = false := by
  refine ⟨?_, ?_, by decide, by decide⟩
  · by_cases hc : (effectiveAllowFrom config stored).contains "*"
    · simp [isSenderAllowed, hc]
    · simp [isSenderAllowed, hc]
  · intro hna
    simp [handlePrivateMessagePolicy, hna]

/-- Witness for `c7_allowlist` at the concrete configuration of the claim. -/
theorem c7_witness :
    handlePrivateMessagePolicy .allowlist (effectiveAllowFrom ["123"] []) [] "456" =
      ⟨[], 0, false⟩ :=
  (c7_allowlist ["123"] [] [] "456").2.1 (by decide)

/-- C8: under dmPolicy `pairing`, a message from an unauthorized sender
without an existing pairing request upserts exactly one request for that
sender and sends exactly one pairing reply, and the message is not
dispatched; a second message from the same sender before approval leaves
the store unchanged, sends no further reply, and is again not dispatched. -/
theorem c8_pairing (allowFrom store : List String) (sender : String)
    (hna : isSenderAllowed sender allowFrom = false)
    (hnew : store.contains sender = false) :
    handlePrivateMessagePolicy .pairing allowFrom store sender =
      ⟨store ++ [sender], 1, false⟩ ∧
    (store ++ [sender]).count sender = 1 ∧
    handlePrivateMessagePolicy .pairing allowFrom (store ++ [sender]) sender =
      ⟨store ++ [sender], 0, false⟩ := by
  have hm : ¬ sender ∈ store := by simpa using hnew
  refine ⟨?_, ?_, ?_⟩
  · simp [handlePrivateMessagePolicy, hna, upsertPairingRequest, hm]
  · simp [List.count_append, List.count_eq_zero.mpr hm]
  · simp [handlePrivateMessagePolicy, hna, upsertPairingRequest]

/-- Witness for `c8_pairing`: a first and a second message from the
unauthorized sender "777" with an empty store. -/
theorem c8_witness :
    handlePrivateMessagePolicy .pairing [] [] "777" = ⟨["777"], 1, false⟩ ∧
    handlePrivateMessagePolicy .pairing [] ["777"] "777" = ⟨["777"], 0, false⟩ := by
  have h := c8_pairing [] [] "777" (by decide) (by decide)
  exact ⟨h.1, h.2.2⟩

/-- C9: when the effective allow list contains the wildcard entry "*",
every sender is authorized, and under both the `allowlist` and `pairing`
policies every message proceeds to dispatch. -/
theorem c9_wildcard (config stored store : List String) (sender : String)
    (h : (effectiveAllowFrom config stored).contains "*" = true) :
    isSenderAllowed sender (effectiveAllowFrom config stored) = true ∧
    (handlePrivateMessagePolicy .allowlist (effectiveAllowFrom config stored) store
        sender).dispatched = true ∧
    (handlePrivateMessagePolicy .pairing (effectiveAllowFrom config stored) store
        sender).dispatched = true := by
  have hmem : "*" ∈ effectiveAllowFrom config stored := by simpa using h
  have ha : isSenderAllowed sender (effectiveAllowFrom config stored) = true := by
    simp [isSenderAllowed, hmem]
  refine ⟨ha, ?_, ?_⟩ <;> simp [handlePrivateMessagePolicy, ha]

/-- Witness for `c9_wildcard`: configured allow-list ["*"] authorizes the
otherwise-unlisted sender "456". -/
theorem c9_witness :
    isSenderAllowed "456" (effectiveAllowFrom ["*"] []) = true :=
  (c9_wildcard ["*"] [] [] "456" (by decide)).1

/-- C10: in the reply delivery callback, with media present, a non-empty
sanitized caption longer than the chunk limit is first sent alone as
ordered text chunks and every media item then goes out with an empty
caption; otherwise the caption rides on the first media item only and the
remaining media items are sent with empty text. -/
theorem c10_deliver (sanitize : String → String) (chunk : String → List String)
    (textLimit : Nat) (p : ReplyPayload) (u : String) (rest : List String)
    (hmedia : resolveMediaUrls p = u :: rest) :
    (sanitize ((p.text).getD "") ≠ "" ∧ textLimit < (sanitize ((p.text).getD "")).length →
      deliverOps sanitize chunk textLimit p =
        sendTextChunksOps sanitize chunk (sanitize ((p.text).getD "")) ++
          (SendOp.media "" u :: rest.map (fun v => SendOp.media "" v))) ∧
    (¬ (sanitize ((p.text).getD "") ≠ "" ∧ textLimit < (sanitize ((p.text).getD "")).length) →
      deliverOps sanitize chunk textLimit p =
        SendOp.media (sanitize ((p.text).getD "")) u :: rest.map (fun v => SendOp.media "" v)) := by
  constructor <;> intro h <;> simp [deliverOps, hmedia, mediaLoopOps, h]

/-- Witness for `c10_deliver`: an over-limit caption "abc" at limit 1 is
chunked ahead of two captionless media sends, and the same caption at
limit 10 rides on the first media item only. -/
theorem c10_witness :
    deliverOps id (fun s => [s]) 1 ⟨some "abc", none, some ["u1", "u2"]⟩ =
      [SendOp.text "abc", SendOp.media "" "u1", SendOp.media "" "u2"] ∧
    deliverOps id (fun s => [s]) 10 ⟨some "abc", none, some ["u1", "u2"]⟩ =
      [SendOp.media "abc" "u1", SendOp.media "" "u2"] := by
  constructor
  · rw [(c10_deliver id (fun s => [s]) 1 ⟨some "abc", none, some ["u1", "u2"]⟩
      "u1" ["u2"] rfl).1 (by decide)]
    decide
  · rw [(c10_deliver id (fun s => [s]) 10 ⟨some "abc", none, some ["u1", "u2"]⟩
      "u1" ["u2"] rfl).2 (by decide)]
    decide

/-- Looking up the removed key in the pending map after deletion finds
nothing. -/
theorem lookup_filter_self (k : String) (l : List (String × String)) :
    (l.filter (fun e => !(e.1 == k))).lookup k = none := by
  induction l with
  | nil => rfl
  | cons e rest ih =>
    obtain ⟨a, b⟩ := e
    by_cases hk : a = k
    · simpa [List.filter_cons, hk] using ih
    · have hka : (k == a) = false := by simp [Ne.symm hk]
      simp [List.filter_cons, hk, List.lookup_cons, hka, ih]

/-- Deleting one key from the pending map leaves the lookup of every other
key unchanged. -/
theorem lookup_filter_other (k j : String) (l : List (String × String)) (h : j ≠ k) :
    (l.filter (fun e => !(e.1 == k))).lookup j = l.lookup j := by
  induction l with
  | nil => rfl
  | cons e rest ih =>
    obtain ⟨a, b⟩ := e
    by_cases hk : a = k
    · have hjk : (j == k) = false := by simp [h]
      simp [List.filter_cons, hk, List.lookup_cons, hjk, ih]
    · cases hja : (j == a) <;>
        simp [List.filter_cons, hk, List.lookup_cons, hja, ih]

/-- C2: an action response whose echo token matches a pending entry
resolves exactly that entry's waiter once, removes the entry (clearing its
timeout) while leaving every other entry's lookup unchanged, and a
repeated identical response is then dropped; a response whose token (the
empty string when the token is absent) matches no pending entry is dropped
silently with no state change and no settlement. -/
theorem c2_response_correlation (st : ConnState) (resp : OneBotActionResponse) :
    (∀ a, st.pending.lookup (echoKey resp) = some a →
      handleMessage st (.withEcho resp) =
        ⟨{ st with pending := st.pending.filter (fun e => !(e.1 == echoKey resp)) },
         [(echoKey resp, Settle.resolved resp)], none⟩ ∧
      (handleMessage st (.withEcho resp)).state.pending.lookup (echoKey resp) = none ∧
      (∀ j, j ≠ echoKey resp →
        (handleMessage st (.withEcho resp)).state.pending.lookup j = st.pending.lookup j) ∧
      handleMessage (handleMessage st (.withEcho resp)).state (.withEcho resp) =
        ⟨(handleMessage st (.withEcho resp)).state, [], none⟩) ∧
    (st.pending.lookup (echoKey resp) = none →
      handleMessage st (.withEcho resp) = ⟨st, [], none⟩) := by
  constructor
  · intro a ha
    have h1 : handleMessage st (.withEcho resp) =
        ⟨{ st with pending := st.pending.filter (fun e => !(e.1 == echoKey resp)) },
         [(echoKey resp, Settle.resolved resp)], none⟩ := by
      simp [handleMessage, ha]
    refine ⟨h1, ?_, ?_, ?_⟩
    · rw [h1]
      exact lookup_filter_self _ _
    · intro j hj
      rw [h1]
      exact lookup_filter_other _ _ _ hj
    · rw [h1]
      simp [handleMessage, lookup_filter_self]
  · intro h0
    simp [handleMessage, h0]

/-- Witness for `c2_response_correlation`: a response with echo "1"
resolves the first of two pending entries and leaves the other intact. -/
theorem c2_witness :
    handleMessage ⟨[("1", "send_private_msg"), ("2", "get_login_info")], true, false, 2, 0⟩
        (.withEcho ⟨RespStatus.ok, 0, none, some "1"⟩) =
      ⟨⟨[("2", "get_login_info")], true, false, 2, 0⟩,
       [("1", Settle.resolved ⟨RespStatus.ok, 0, none, some "1"⟩)], none⟩ := by
  have h := (c2_response_correlation
      ⟨[("1", "send_private_msg"), ("2", "get_login_info")], true, false, 2, 0⟩
      ⟨RespStatus.ok, 0, none, some "1"⟩).1 "send_private_msg" (by decide)
  exact h.1.trans (by decide)

/-- C3: while not stopped, a socket closure schedules a reconnect after
exactly `min(1000 * 2 ^ n, 15000)` milliseconds where `n` is the current
attempt counter, and only then increments the counter; a successful open
resets the counter to zero, so after an open followed by `n` closures the
counter reads `n` and the next closure's delay is `min(1000 * 2 ^ n,
15000)`. -/
theorem c3_reconnect_backoff (st : ConnState) (h : st.stopped = false) :
    (handleClose st).scheduledDelay =
      some (min (1000 * 2 ^ st.reconnectAttempts) 15000) ∧
    (handleClose st).state.reconnectAttempts = st.reconnectAttempts + 1 ∧
    (handleOpen st).state.reconnectAttempts = 0 ∧
    (∀ n, ((fun s => (handleClose s).state)^[n] (handleOpen st).state).reconnectAttempts = n) ∧
    (∀ n, (handleClose ((fun s => (handleClose s).state)^[n]
        (handleOpen st).state)).scheduledDelay = some (min (1000 * 2 ^ n) 15000)) := by
  have hstep : ∀ s : ConnState, s.stopped = false →
      (handleClose s).scheduledDelay = some (min (1000 * 2 ^ s.reconnectAttempts) 15000) ∧
      (handleClose s).state.reconnectAttempts = s.reconnectAttempts + 1 ∧
      (handleClose s).state.stopped = false := by
    intro s hs
    simp [handleClose, cleanupPending, hs, RECONNECT_BASE_MS, RECONNECT_MAX_MS]
  have hiter : ∀ n, ((fun s => (handleClose s).state)^[n]
      (handleOpen st).state).reconnectAttempts = n ∧
      ((fun s => (handleClose s).state)^[n] (handleOpen st).state).stopped = false := by
    intro n
    induction n with
    | zero => exact ⟨rfl, h⟩
    | succ n ih =>
      rw [Function.iterate_succ_apply']
      have hs := hstep _ ih.2
      exact ⟨by rw [hs.2.1, ih.1], hs.2.2⟩
  refine ⟨(hstep st h).1, (hstep st h).2.1, rfl, fun n => (hiter n).1, fun n => ?_⟩
  have hs := hstep _ (hiter n).2
  rw [hs.1, (hiter n).1]

/-- Witness for `c3_reconnect_backoff`: an unstopped connection with three
prior attempts schedules the fourth reconnect after 8000 ms. -/
theorem c3_witness :
    (handleClose ⟨[], false, false, 0, 3⟩).scheduledDelay = some 8000 ∧
    (handleClose ⟨[], false, false, 0, 3⟩).state.reconnectAttempts = 4 := by
  have h := c3_reconnect_backoff ⟨[], false, false, 0, 3⟩ rfl
  exact ⟨h.1.trans (by decide), h.2.1.trans (by decide)⟩

/-- C4: `stop()` sets the stopped flag, empties the pending map, closes the
socket, rejects each formerly pending request exactly once with the
"WebSocket stopped" reason and schedules nothing; a second `stop()` — and
equally the closure callback that the socket close triggers — changes
nothing, rejects nothing and schedules no reconnect. -/
theorem c4_stop_idempotent (st : ConnState) :
    (stop st).state.stopped = true ∧
    (stop st).state.pending = [] ∧
    (stop st).state.wsConnected = false ∧
    (stop st).settles =
      st.pending.map (fun e => (e.1, Settle.rejected "WebSocket stopped")) ∧
    (stop st).scheduledDelay = none ∧
    stop (stop st).state = ⟨(stop st).state, [], none⟩ ∧
    handleClose (stop st).state = ⟨(stop st).state, [], none⟩ := by
  simp [stop, handleClose, cleanupPending]

/-- The timeout rejection message is distinct from the teardown rejection
reasons, whatever the action name. -/
theorem timeoutMsg_ne (a : String) :
    ("OneBot request timeout: " ++ a) ≠ "WebSocket closed" ∧
    ("OneBot request timeout: " ++ a) ≠ "WebSocket stopped" := by
  have hpre : ("OneBot request timeout: ").length = 24 := rfl
  have hc : ("WebSocket closed").length = 16 := rfl
  have hs : ("WebSocket stopped").length = 17 := rfl
  constructor
  · intro h
    have hl := congrArg String.length h
    rw [String.length_append, hpre, hc] at hl
    omega
  · intro h
    have hl := congrArg String.length h
    rw [String.length_append, hpre, hs] at hl
    omega

/-- C1 as stated is false on the code: with an HTTP fallback URL
configured, a socket request that times out after the 10-second window is
re-issued over the HTTP fallback transport inside `sendAction`, and the
caller receives the HTTP response instead of the timeout failure. -/
theorem c1_counterexample :
    (sendAction true (some "http://127.0.0.1:5700") "send_private_msg" .timedOut
        (.ok ⟨RespStatus.ok, 0, none, none⟩)).usedHttp = true ∧
    (sendAction true (some "http://127.0.0.1:5700") "send_private_msg" .timedOut
        (.ok ⟨RespStatus.ok, 0, none, none⟩)).result =
      .ok ⟨RespStatus.ok, 0, none, none⟩ := by
  constructor <;> rfl

/-- C1 amended: when the 10-second timer fires for a still-pending entry,
the entry is removed and its waiter is rejected with a timeout reason
distinct from the connection-teardown reasons (and, being a rejection,
distinct from any protocol-level `failed` response, which is delivered as
a resolution); `sendAction` propagates this timeout to its caller exactly
when no HTTP fallback URL is configured — with `httpUrl` configured the
timed-out request is re-issued once over the HTTP fallback transport and
the caller receives the HTTP outcome. -/
theorem c1_timeout_propagation (st : ConnState) (echo action u : String)
    (hx : Except Nat OneBotActionResponse) :
    (timeoutFire st echo action).state.pending.lookup echo = none ∧
    (timeoutFire st echo action).settles =
      [(echo, Settle.rejected ("OneBot request timeout: " ++ action))] ∧
    ("OneBot request timeout: " ++ action) ≠ "WebSocket closed" ∧
    ("OneBot request timeout: " ++ action) ≠ "WebSocket stopped" ∧
    (∀ r, Settle.rejected ("OneBot request timeout: " ++ action) ≠ Settle.resolved r) ∧
    sendAction true none action .timedOut hx =
      ⟨.error ("OneBot request timeout: " ++ action), false⟩ ∧
    sendAction true (some u) action .timedOut hx =
      ⟨sendActionHttp (some u) action hx, true⟩ := by
  refine ⟨lookup_filter_self _ _, rfl, (timeoutMsg_ne action).1, (timeoutMsg_ne action).2,
    fun r => by simp, ?_, ?_⟩
  · simp [sendAction]
  · simp [sendAction]

/-- C6 as stated is false on the code: "base64:AAA" carries the `base64:`
scheme (it is accepted as a media reference by `isLikelyMediaRef`), yet
`resolveMediaSegmentType` requires `base64://` — so detection is consulted
and, when detection reports audio, the reference is classified as
`record`, not `image`. -/
theorem c6_counterexample :
    isLikelyMediaRef "base64:AAA" = true ∧
    startsWithCI "base64:AAA" "base64:" = true ∧
    resolveMediaSegmentType (fun _ => MediaKind.audio) "base64:AAA" =
      (some SegmentMediaType.record, true) := by
  refine ⟨by decide, by decide, rfl⟩

/-- C6 amended: only a reference beginning with `base64://` (two slashes)
is unconditionally classified as image with no MIME-detection call; every
other reference — including `base64:` without slashes — consults the
injected detection capability, with image/audio/video mapped to the wire
segment types image/record/video; and when no classification results, the
media send degrades to a single plain-text send whose text combines any
caption and the raw reference, never dropping the message. -/
theorem c6_media_resolution (detectKind : String → MediaKind) (text url : String) :
    (startsWithCI url "base64://" = true →
      resolveMediaSegmentType detectKind url = (some SegmentMediaType.image, false)) ∧
    (startsWithCI url "base64://" = false →
      resolveMediaSegmentType detectKind url =
        (match detectKind url with
         | .image => (some SegmentMediaType.image, true)
         | .audio => (some SegmentMediaType.record, true)
         | .video => (some SegmentMediaType.video, true)
         | .unknown => (none, true))) ∧
    ((resolveMediaSegmentType detectKind url).1 = none →
      sendNapcatMediaSegments detectKind text url =
        [buildTextSegment (if text ≠ "" then text ++ "\n" ++ url else url)]) := by
  refine ⟨?_, ?_, ?_⟩
  · intro h
    simp [resolveMediaSegmentType, h]
  · intro h
    simp [resolveMediaSegmentType, h]
  · intro h
    simp [sendNapcatMediaSegments, h]

/-- Witness for `c6_media_resolution`: a `base64://` reference skips
detection, and an unclassifiable reference degrades to one text send
combining caption and reference. -/
theorem c6_witness :
    resolveMediaSegmentType (fun _ => MediaKind.unknown) "base64://abc" =
      (some SegmentMediaType.image, false) ∧
    sendNapcatMediaSegments (fun _ => MediaKind.unknown) "cap" "/tmp/x.bin" =
      [buildTextSegment "cap\n/tmp/x.bin"] := by
  constructor
  · exact (c6_media_resolution (fun _ => MediaKind.unknown) "" "base64://abc").1 (by decide)
  · rw [(c6_media_resolution (fun _ => MediaKind.unknown) "cap" "/tmp/x.bin").2.2 rfl]
    decide

/-- `Nat.toDigitsCore` never shrinks its accumulator. -/
theorem toDigitsCore_length_le (b : Nat) :
    ∀ (f n : Nat) (ds : List Char), ds.length ≤ (Nat.toDigitsCore b f n ds).length := by
  intro f
  induction f with
  | zero => intro n ds; simp [Nat.toDigitsCore]
  | succ f ih =>
    intro n ds
    simp only [Nat.toDigitsCore]
    split
    · simp
    · exact le_trans (by simp) (ih _ _)

/-- The decimal digit list of a natural number is never empty. -/
theorem toDigits_ne_nil (n : Nat) : Nat.toDigits 10 n ≠ [] := by
  have h : 1 ≤ (Nat.toDigits 10 n).length := by
    simp only [Nat.toDigits, Nat.toDigitsCore]
    split
    · simp
    · exact le_trans (by simp) (toDigitsCore_length_le 10 n (n / 10) _)
  intro hnil
  rw [hnil] at h
  simp at h

/-- The decimal representation of a natural number is a nonempty string. -/
theorem natRepr_ne_empty (n : Nat) : Nat.repr n ≠ "" := by
  intro h
  have hd : Nat.toDigits 10 n = ([] : List Char) := congrArg String.data h
  exact toDigits_ne_nil n hd

/-- Every echo token `sendActionWs` registers is a nonempty string, so a
response whose `echo` value is absent (looked up as the empty string)
never matches a pending entry. -/
theorem sendActionWs_echo_nonempty (st : ConnState) (action : String)
    (st' : ConnState) (e : String) (h : sendActionWsStep st action = .ok (st', e)) :
    e ≠ "" := by
  by_cases hw : st.wsConnected
  · simp [sendActionWsStep, hw] at h
    rw [← h.2]
    exact natRepr_ne_empty (st.echoCounter + 1)
  · simp [sendActionWsStep, hw] at h
